import Mathlib

/-!
Verification of the structured-output contract of the word-deconstruction
script (src/agent/structure.py) against its specification.

The embedding models the pydantic data model, the single-call
deconstruct_word operation, the shape-only output check, and the script
entry point (argument handling aside). The external text-generation
capability is modelled as an oracle from the prompt string to a response.
-/

/-- Embedding of the pydantic model WordPart (src/agent/structure.py). -/
structure WordPart where
  id : String
  text : String
  originalWord : String
  origin : String
  meaning : String
deriving DecidableEq, Repr

/-- Embedding of the pydantic model Combination (src/agent/structure.py). -/
structure Combination where
  id : String
  text : String
  definition : String
  sourceIds : List String
deriving DecidableEq, Repr

/-- Embedding of the pydantic model WordOutput (src/agent/structure.py). -/
structure WordOutput where
  thought : String
  parts : List WordPart
  combinations : List (List Combination)
deriving DecidableEq, Repr

/-- Unvalidated value of agent.output.value after a successful agent.run:
either a value that parsed into the WordOutput schema, or any other text. -/
inductive RawOutput where
  | structured (w : WordOutput)
  | unstructured (text : String)
deriving DecidableEq, Repr

/-- Outcome of one agent.run call: a raw output, or a transport-level
failure raised by the external capability. -/
inductive AgentResponse where
  | ok (out : RawOutput)
  | transportError (msg : String)
deriving DecidableEq, Repr

/-- Errors observable from the embedded program. The constructors valueError,
transport and indexError correspond to exceptions the source can actually
raise (the ValueError in deconstruct_word, an exception from agent.run, and
the IndexError of the display path). The constructors exhaustedRetries and
malformedRequest come from the error taxonomy of the specification; they are
included so that claims mentioning them can be stated, and the source never
constructs them. -/
inductive RunError where
  | valueError (msg : String)
  | transport (msg : String)
  | indexError
  | exhaustedRetries (raw : RawOutput) (problems : List String)
  | malformedRequest (msg : String)
deriving DecidableEq, Repr

/-- Holds exactly when the error is the ExhaustedRetriesError of the
specification. -/
def RunError.isExhaustedRetries : RunError → Bool
  | .exhaustedRetries _ _ => true
  | _ => false

/-- Holds exactly when the error is a transport-level capability failure
(the CapabilityUnavailableError of the specification). -/
def RunError.isTransport : RunError → Bool
  | .transport _ => true
  | _ => false

/-- Holds exactly when the error is the MalformedRequestError of the
specification. -/
def RunError.isMalformedRequest : RunError → Bool
  | .malformedRequest _ => true
  | _ => false

/-- Checks a predicate on the error of a failed run; a successful run
satisfies no error predicate. -/
def errSatisfies (p : RunError → Bool) : Except RunError WordOutput → Bool
  | .error e => p e
  | .ok _ => false

/-- Model of json.dumps on a string value: the string in double quotes.
Escaping of special characters inside the string is not reproduced; every
concrete input used below is free of characters that json.dumps escapes. -/
def jsonStr (s : String) : String := "\"" ++ s ++ "\""

/-- Model of json.dumps(previous_attempts, indent=2) for a list of strings. -/
def jsonDumpsList : List String → String
  | [] => "[]"
  | xs => "[\n" ++ String.intercalate ",\n" (xs.map (fun s => "  " ++ jsonStr s)) ++ "\n]"

/-- Embedding of the base prompt f-string of deconstruct_word. -/
def basePrompt (word : String) : String :=
  "Your task is to deconstruct this EXACT word: \x27" ++ word ++ "\x27\n" ++
  "Do not analyze any other word. Focus only on \x27" ++ word ++ "\x27.\n" ++
  "Break down \x27" ++ word ++ "\x27 into its etymological components."

/-- Embedding of the retry-feedback suffix appended to the prompt when
previous_attempts is truthy. -/
def promptSuffix (attempts : List String) : String :=
  "\n\nPrevious attempts:\n" ++ jsonDumpsList attempts ++
  "\n\nPlease fix all the issues and try again."

/-- Prompt sent by deconstruct_word: the base prompt, plus the feedback
suffix when previous_attempts is a non-empty list (Python truthiness: both
None and the empty list skip the suffix). -/
def buildPrompt (word : String) (previousAttempts : Option (List String)) : String :=
  match previousAttempts with
  | none => basePrompt word
  | some attempts =>
      if attempts.isEmpty then basePrompt word
      else basePrompt word ++ promptSuffix attempts

/-- Embedding of the output check in deconstruct_word: isinstance of
agent.output.value against WordOutput. True exactly when the raw output
parsed into the schema; nothing else about the value is inspected. -/
def isWordOutput : RawOutput → Bool
  | .structured _ => true
  | .unstructured _ => false

/-- Message of the ValueError raised by deconstruct_word. -/
def wordOutputErrMsg : String := "Agent output is not a WordOutput"

/-- Failure detail the code produces for a raw output: the only validation
failure detail in the source is the ValueError message, so the problem list
is that single message when the check fails and empty when it passes. -/
def validationProblems (r : RawOutput) : List String :=
  if isWordOutput r then [] else [wordOutputErrMsg]

/-- Embedding of deconstruct_word (src/agent/structure.py): build the prompt,
invoke agent.run once, return the output when it parsed into WordOutput,
raise ValueError otherwise; an exception from agent.run propagates. -/
def deconstruct_word (agent : String → AgentResponse) (word : String)
    (previousAttempts : Option (List String)) : Except RunError WordOutput :=
  match agent (buildPrompt word previousAttempts) with
  | .transportError msg => .error (.transport msg)
  | .ok (.structured w) => .ok w
  | .ok (.unstructured _) => .error (.valueError wordOutputErrMsg)

/-- Trace-instrumented deconstruct_word: also returns the list of prompts
sent to the capability. The source body is straight-line with a single
agent.run call, so the trace records exactly that one prompt. -/
def deconstructWithTrace (agent : String → AgentResponse) (word : String)
    (previousAttempts : Option (List String)) :
    Except RunError WordOutput × List String :=
  (deconstruct_word agent word previousAttempts, [buildPrompt word previousAttempts])

/-- Embedding of the comma join of the non-verbose branch of the entry point. -/
def formatParts (parts : List WordPart) : String :=
  String.intercalate ", " (parts.map (fun p => p.text ++ " (" ++ p.meaning ++ ")"))

/-- Log lines of the non-verbose branch, together with the IndexError raised
when combinations, or its last layer, is empty. The source logs the Word and
Parts lines, then logs the Definition line with the one-element Python set
written around the definition field; the set renders through the percent-s
format as the definition in single quotes inside braces. Python repr of a
string is modelled without escaping; every concrete input used below is free
of characters that repr escapes. -/
def nonVerboseLines (word : String) (result : WordOutput) : List String × Option RunError :=
  let base := ["Word: " ++ word, "Parts: " ++ formatParts result.parts]
  match result.combinations.getLast? with
  | none => (base, some .indexError)
  | some layer =>
      match layer.head? with
      | none => (base, some .indexError)
      | some c => (base ++ ["Definition: \x7b\x27" ++ c.definition ++ "\x27\x7d"], none)

/-- Model of json.dumps(result.model_dump(), indent=2) used by the verbose
branch: serialized JSON of the result. Indentation whitespace is not
reproduced; no claim depends on the verbose rendering. -/
def modelDumpJson (w : WordOutput) : String :=
  let partJson := fun (p : WordPart) =>
    "\x7b\"id\": " ++ jsonStr p.id ++ ", \"text\": " ++ jsonStr p.text ++
    ", \"originalWord\": " ++ jsonStr p.originalWord ++ ", \"origin\": " ++ jsonStr p.origin ++
    ", \"meaning\": " ++ jsonStr p.meaning ++ "\x7d"
  let comboJson := fun (c : Combination) =>
    "\x7b\"id\": " ++ jsonStr c.id ++ ", \"text\": " ++ jsonStr c.text ++
    ", \"definition\": " ++ jsonStr c.definition ++
    ", \"sourceIds\": [" ++ String.intercalate ", " (c.sourceIds.map jsonStr) ++ "]\x7d"
  let layerJson := fun (layer : List Combination) =>
    "[" ++ String.intercalate ", " (layer.map comboJson) ++ "]"
  "\x7b\"thought\": " ++ jsonStr w.thought ++
  ", \"parts\": [" ++ String.intercalate ", " (w.parts.map partJson) ++ "]" ++
  ", \"combinations\": [" ++ String.intercalate ", " (w.combinations.map layerJson) ++ "]\x7d"

/-- Parsed command-line arguments of the entry point. -/
structure CliArgs where
  word : String
  verbose : Bool
deriving DecidableEq, Repr

/-- Embedding of the script entry point, given parsed arguments and the
capability oracle: returns the process exit code and the logged lines. The
try block covers the run and the display; logger.exception in the blanket
handler logs its message line, and the script then falls off the end of the
with block, so the exit code is 0 on every path. -/
def mainRun (agent : String → AgentResponse) (args : CliArgs) : Nat × List String :=
  match deconstruct_word agent args.word none with
  | .error _ => (0, ["Error deconstructing word"])
  | .ok result =>
      if args.verbose then (0, [modelDumpJson result])
      else
        match nonVerboseLines args.word result with
        | (lines, none) => (0, lines)
        | (lines, some _) => (0, lines ++ ["Error deconstructing word"])

/-- Modelled from the spec: the ids of all entities of a result, parts
first, then every combination layer in order. -/
def allIds (w : WordOutput) : List String :=
  w.parts.map (fun p => p.id) ++ (w.combinations.flatten.map (fun c => c.id))

/-- Decides that no string occurs twice in the list. -/
def nodup : List String → Bool
  | [] => true
  | x :: xs => !(xs.contains x) && nodup xs

/-- Modelled from the spec: id-uniqueness across parts and all combination
layers. -/
def spec_idsUnique (w : WordOutput) : Bool :=
  nodup (allIds w)

/-- Modelled from the spec: every sourceIds entry of each combination in a
layer resolves among the ids available from parts and strictly earlier
layers; each layer then contributes its own ids to the next. -/
def layersOk (available : List String) : List (List Combination) → Bool
  | [] => true
  | layer :: rest =>
      layer.all (fun c => c.sourceIds.all (fun s => available.contains s)) &&
      layersOk (available ++ layer.map (fun c => c.id)) rest

/-- Modelled from the spec: the DAG invariant, never layer greater or equal
to the own layer, of an accepted result. -/
def spec_sourceIdsOk (w : WordOutput) : Bool :=
  layersOk (w.parts.map (fun p => p.id)) w.combinations

/-- Capability oracle whose output never parses into the WordOutput schema. -/
def badAgent : String → AgentResponse :=
  fun _ => .ok (.unstructured "not json")

/-- Concrete result for the word unhappiness: three parts and two
combination layers, as in the scenario of the specification. -/
def unhappyOutput : WordOutput where
  thought := "un + happy + ness"
  parts :=
    [ { id := "un", text := "un-", originalWord := "un-", origin := "Old English", meaning := "not" },
      { id := "happy", text := "happy", originalWord := "hap", origin := "Old Norse", meaning := "glad" },
      { id := "ness", text := "-ness", originalWord := "-nes", origin := "Old English", meaning := "state of" } ]
  combinations :=
    [ [ { id := "unhappy", text := "unhappy", definition := "not happy", sourceIds := ["un", "happy"] } ],
      [ { id := "unhappiness", text := "unhappiness", definition := "state of being unhappy", sourceIds := ["unhappy", "ness"] } ] ]

/-- Capability oracle that always returns the unhappiness result. -/
def unhappyAgent : String → AgentResponse :=
  fun _ => .ok (.structured unhappyOutput)

/-- Concrete schema-shaped result whose single combination cites its own id,
a self reference forbidden by the DAG invariant of the specification. -/
def selfRefOutput : WordOutput where
  thought := "cyclic"
  parts := [ { id := "seed", text := "seed", originalWord := "seed", origin := "Old English", meaning := "origin" } ]
  combinations := [ [ { id := "loop", text := "loop", definition := "cites itself", sourceIds := ["loop"] } ] ]

/-- Capability oracle that always returns the self-referential result. -/
def selfRefAgent : String → AgentResponse :=
  fun _ => .ok (.structured selfRefOutput)

/-- Concrete schema-shaped result in which two parts share the id seg. -/
def dupIdOutput : WordOutput where
  thought := "duplicate ids"
  parts :=
    [ { id := "seg", text := "aa", originalWord := "aa", origin := "Latin", meaning := "first" },
      { id := "seg", text := "bb", originalWord := "bb", origin := "Greek", meaning := "second" } ]
  combinations := [ [ { id := "whole", text := "aabb", definition := "both", sourceIds := ["seg"] } ] ]

/-- Capability oracle that always returns the duplicate-id result. -/
def dupIdAgent : String → AgentResponse :=
  fun _ => .ok (.structured dupIdOutput)

/-- Concrete schema-shaped result whose combinations list is empty. -/
def emptyCombosOutput : WordOutput where
  thought := "no combinations"
  parts := [ { id := "solo", text := "solo", originalWord := "solus", origin := "Latin", meaning := "alone" } ]
  combinations := []

/-- Capability oracle that always returns the result with no combinations. -/
def emptyCombosAgent : String → AgentResponse :=
  fun _ => .ok (.structured emptyCombosOutput)

/-- Associativity of string append, via the underlying character lists. -/
theorem strAppendAssoc (a b c : String) : a ++ b ++ c = a ++ (b ++ c) := by
  apply String.ext
  simp [String.data_append, List.append_assoc]

/-- C1: counterexample. With a capability whose output fails validation, the
run fails with ValueError carrying only the fixed message, not with the
ExhaustedRetriesError (with last raw output and problems) that the claim
states; the claimed maxAttempts configuration does not exist in the code. -/
theorem C1_counterexample :
    deconstruct_word badAgent "unhappiness" none
      = Except.error (RunError.valueError "Agent output is not a WordOutput") ∧
    errSatisfies RunError.isExhaustedRetries (deconstruct_word badAgent "unhappiness" none)
      = false :=
  ⟨rfl, rfl⟩

/-- C1 (amended): deconstruct_word issues exactly one capability call per
invocation; when the output of that call fails the WordOutput check it raises
ValueError with the fixed message and makes no further calls. -/
theorem C1_single_attempt (agent : String → AgentResponse) (word : String)
    (prev : Option (List String)) (t : String)
    (h : agent (buildPrompt word prev) = AgentResponse.ok (RawOutput.unstructured t)) :
    (deconstructWithTrace agent word prev).2.length = 1 ∧
    deconstruct_word agent word prev
      = Except.error (RunError.valueError wordOutputErrMsg) := by
  refine ⟨rfl, ?_⟩
  simp [deconstruct_word, h]

/-- C1 witness: the amended statement at the concrete failing capability. -/
theorem C1_single_attempt_witness :
    (deconstructWithTrace badAgent "unhappiness" none).2.length = 1 ∧
    deconstruct_word badAgent "unhappiness" none
      = Except.error (RunError.valueError wordOutputErrMsg) :=
  C1_single_attempt badAgent "unhappiness" none "not json" rfl

/-- C2: counterexample. The validation-failure ValueError reaches the caller
directly on the very first failed check: the error the caller sees is neither
an ExhaustedRetriesError nor a transport failure. -/
theorem C2_counterexample :
    errSatisfies (fun e => e.isExhaustedRetries || e.isTransport)
        (deconstruct_word badAgent "unhappiness" none) = false ∧
    errSatisfies (fun _ => true) (deconstruct_word badAgent "unhappiness" none) = true :=
  ⟨rfl, rfl⟩

/-- C2 (amended): the errors deconstruct_word can raise to its caller are
exactly the validation ValueError, propagated immediately since there is no
retry loop, or a transport failure of the capability call. -/
theorem C2_error_propagation (agent : String → AgentResponse) (word : String)
    (prev : Option (List String)) (e : RunError)
    (h : deconstruct_word agent word prev = Except.error e) :
    e = RunError.valueError wordOutputErrMsg ∨ ∃ m, e = RunError.transport m := by
  cases hA : agent (buildPrompt word prev) with
  | transportError m =>
      simp [deconstruct_word, hA] at h
      exact Or.inr ⟨m, h.symm⟩
  | ok raw =>
      cases raw with
      | structured w => simp [deconstruct_word, hA] at h
      | unstructured t =>
          simp [deconstruct_word, hA] at h
          exact Or.inl h.symm

/-- C2 witness: the amended statement at the concrete failing capability. -/
theorem C2_error_propagation_witness :
    RunError.valueError wordOutputErrMsg = RunError.valueError wordOutputErrMsg ∨
    ∃ m, RunError.valueError wordOutputErrMsg = RunError.transport m :=
  C2_error_propagation badAgent "unhappiness" none
    (RunError.valueError wordOutputErrMsg) rfl

/-- C3: counterexample. A schema-shaped result whose combination cites its
own id is returned as a valid result by the run, yet it violates the
source-resolution invariant the claim says the validator enforces. -/
theorem C3_counterexample :
    deconstruct_word selfRefAgent "loop" none = Except.ok selfRefOutput ∧
    spec_sourceIdsOk selfRefOutput = false :=
  ⟨rfl, by decide⟩

/-- C3 (amended): validation checks only that the output has the WordOutput
shape; no sourceIds resolution is performed, so a structured output is
accepted even when it contains a forward or self reference. -/
theorem C3_shape_only_acceptance (agent : String → AgentResponse) (word : String)
    (prev : Option (List String)) (w : WordOutput)
    (hA : agent (buildPrompt word prev) = AgentResponse.ok (RawOutput.structured w))
    (_hBad : spec_sourceIdsOk w = false) :
    deconstruct_word agent word prev = Except.ok w := by
  simp [deconstruct_word, hA]

/-- C3 witness: the amended statement at the self-referential result. -/
theorem C3_shape_only_acceptance_witness :
    deconstruct_word selfRefAgent "loop" none = Except.ok selfRefOutput :=
  C3_shape_only_acceptance selfRefAgent "loop" none selfRefOutput rfl (by decide)

/-- C4: counterexample. A schema-shaped result in which two parts share an id
is returned as a valid result by the run, yet it violates the id-uniqueness
invariant the claim says the validator enforces. -/
theorem C4_counterexample :
    deconstruct_word dupIdAgent "aabb" none = Except.ok dupIdOutput ∧
    spec_idsUnique dupIdOutput = false :=
  ⟨rfl, by decide⟩

/-- C4 (amended): validation checks only that the output has the WordOutput
shape; id uniqueness is not checked, so a structured output with duplicate
ids across parts and layers is accepted. -/
theorem C4_duplicate_ids_accepted (agent : String → AgentResponse) (word : String)
    (prev : Option (List String)) (w : WordOutput)
    (hA : agent (buildPrompt word prev) = AgentResponse.ok (RawOutput.structured w))
    (_hDup : spec_idsUnique w = false) :
    deconstruct_word agent word prev = Except.ok w := by
  simp [deconstruct_word, hA]

/-- C4 witness: the amended statement at the duplicate-id result. -/
theorem C4_duplicate_ids_accepted_witness :
    deconstruct_word dupIdAgent "aabb" none = Except.ok dupIdOutput :=
  C4_duplicate_ids_accepted dupIdAgent "aabb" none dupIdOutput rfl (by decide)

/-- C5: counterexample. A run that fails (the capability output never
validates) still makes the entry point exit with code 0: the blanket handler
logs the error line and the script ends normally. -/
theorem C5_counterexample :
    errSatisfies (fun _ => true) (deconstruct_word badAgent "unhappiness" none) = true ∧
    mainRun badAgent { word := "unhappiness", verbose := false }
      = (0, ["Error deconstructing word"]) :=
  ⟨rfl, rfl⟩

/-- C5 (amended): the entry point exits with code 0 on every path, success
or failure; failures are only logged, never reflected in the exit code. -/
theorem C5_exit_code_always_zero (agent : String → AgentResponse) (args : CliArgs) :
    (mainRun agent args).1 = 0 := by
  unfold mainRun
  repeat' split
  all_goals rfl

/-- C6: evaluation at the scenario result. The Word line and the Parts line
render exactly as the claim states, but the Definition line renders the
one-element Python set around the definition field, in braces and quotes,
instead of the plain definition string of the first Combination of the last
layer. -/
theorem C6_display_evaluation :
    mainRun unhappyAgent { word := "unhappiness", verbose := false } =
      (0, ["Word: unhappiness",
           "Parts: un- (not), happy (glad), -ness (state of)",
           "Definition: \x7b\x27state of being unhappy\x27\x7d"]) := by
  rfl

/-- C7: counterexample. For the empty target the run does not fail with a
MalformedRequestError before calling the capability: exactly one capability
call is made, and with a well-shaped response the run even succeeds. -/
theorem C7_counterexample :
    deconstruct_word unhappyAgent "" none = Except.ok unhappyOutput ∧
    (deconstructWithTrace unhappyAgent "" none).2.length = 1 :=
  ⟨rfl, rfl⟩

/-- C7 (amended): no input validation exists: for the empty target the prompt
is built around the empty string, exactly one capability call is made, and a
MalformedRequestError is never raised. -/
theorem C7_no_input_validation (agent : String → AgentResponse)
    (prev : Option (List String)) :
    (deconstructWithTrace agent "" prev).2 = [buildPrompt "" prev] ∧
    errSatisfies RunError.isMalformedRequest (deconstruct_word agent "" prev) = false := by
  refine ⟨rfl, ?_⟩
  unfold errSatisfies deconstruct_word
  cases agent (buildPrompt "" prev) with
  | transportError m => rfl
  | ok raw => cases raw <;> rfl

/-- C8: counterexample. The first attempt fails validation with a non-empty
problem list, yet the whole run sends exactly one prompt: no attempt two
exists, so no later prompt context contains the problems of attempt one. -/
theorem C8_counterexample :
    validationProblems (RawOutput.unstructured "not json") = [wordOutputErrMsg] ∧
    (deconstructWithTrace badAgent "unhappiness" none).2
      = [buildPrompt "unhappiness" none] ∧
    (deconstructWithTrace badAgent "unhappiness" none).2.length = 1 :=
  ⟨rfl, rfl, rfl⟩

/-- C8 (amended): retry feedback exists only as the previous_attempts
parameter: when the caller supplies a non-empty list, its JSON dump appears
verbatim inside the prompt; the program itself never issues a second attempt
within a run. -/
theorem C8_feedback_in_prompt (word : String) (attempts : List String)
    (h : attempts ≠ []) :
    ∃ pre post, buildPrompt word (some attempts)
      = pre ++ (jsonDumpsList attempts ++ post) := by
  cases attempts with
  | nil => exact absurd rfl h
  | cons a as =>
      refine ⟨basePrompt word ++ "\n\nPrevious attempts:\n",
              "\n\nPlease fix all the issues and try again.", ?_⟩
      show basePrompt word ++ promptSuffix (a :: as) = _
      unfold promptSuffix
      rw [strAppendAssoc, strAppendAssoc]

/-- C8 witness: the amended statement at a concrete feedback list. -/
theorem C8_feedback_in_prompt_witness :
    ∃ pre post, buildPrompt "unhappiness" (some ["missing source id"])
      = pre ++ (jsonDumpsList ["missing source id"] ++ post) :=
  C8_feedback_in_prompt "unhappiness" ["missing source id"] (by decide)

/-- C9: the validation verdict and problem list are functions of the raw
output value alone, so validating the same RawOutput twice yields the same
verdict and the same problem list. -/
theorem C9_validation_deterministic (r₁ r₂ : RawOutput) (h : r₁ = r₂) :
    isWordOutput r₁ = isWordOutput r₂ ∧
    validationProblems r₁ = validationProblems r₂ := by
  subst h
  exact ⟨rfl, rfl⟩

/-- C9 witness: determinism at a concrete raw output. -/
theorem C9_validation_deterministic_witness :
    isWordOutput (RawOutput.unstructured "not json")
      = isWordOutput (RawOutput.unstructured "not json") ∧
    validationProblems (RawOutput.unstructured "not json")
      = validationProblems (RawOutput.unstructured "not json") :=
  C9_validation_deterministic (RawOutput.unstructured "not json")
    (RawOutput.unstructured "not json") rfl

/-- C10: counterexample. A schema-shaped result with an empty combinations
list passes the code's acceptance check and is returned by the run, yet the
non-verbose display access of the first Combination of the last layer fails
with an index error. -/
theorem C10_counterexample :
    isWordOutput (RawOutput.structured emptyCombosOutput) = true ∧
    deconstruct_word emptyCombosAgent "solo" none = Except.ok emptyCombosOutput ∧
    (nonVerboseLines "solo" emptyCombosOutput).2 = some RunError.indexError :=
  ⟨rfl, rfl, rfl⟩

/-- C10 (amended): acceptance guarantees only the WordOutput shape: every
result with an empty combinations list is accepted, the display access then
fails with an index error after the Word and Parts lines were logged, and the
blanket handler still lets the program exit with code 0. -/
theorem C10_display_unsafe (word : String) (w : WordOutput)
    (h : w.combinations = []) :
    isWordOutput (RawOutput.structured w) = true ∧
    (nonVerboseLines word w).2 = some RunError.indexError ∧
    mainRun (fun _ => AgentResponse.ok (RawOutput.structured w))
        { word := word, verbose := false }
      = (0, ["Word: " ++ word, "Parts: " ++ formatParts w.parts,
             "Error deconstructing word"]) := by
  refine ⟨rfl, ?_, ?_⟩
  · unfold nonVerboseLines
    rw [h]
    rfl
  · simp [mainRun, deconstruct_word, nonVerboseLines, h]

/-- C10 witness: the amended statement at the concrete result with no
combinations. -/
theorem C10_display_unsafe_witness :
    isWordOutput (RawOutput.structured emptyCombosOutput) = true ∧
    (nonVerboseLines "solo" emptyCombosOutput).2 = some RunError.indexError ∧
    mainRun (fun _ => AgentResponse.ok (RawOutput.structured emptyCombosOutput))
        { word := "solo", verbose := false }
      = (0, ["Word: " ++ "solo", "Parts: " ++ formatParts emptyCombosOutput.parts,
             "Error deconstructing word"]) :=
  C10_display_unsafe "solo" emptyCombosOutput rfl
